import Mathlib

/-!
Shallow embedding of `fs_mgr/fs_mgr_format.cpp` (Android fs_mgr format/resize
glue).  External process invocation is modelled by an oracle
`exec : List String → Int` giving the exit status of an argv, and every
embedded function additionally returns the trace of argv lists it invoked.
A block device is modelled by the result of its `BLKGETSIZE64` ioctl
(`none` = open or ioctl failure in `get_dev_sz`) and by the result of a
`pread` of one `f2fs_super_block` record at a byte offset (`none` = short
read or failed read, e.g. because the device could not be opened).
All C `uint64_t` arithmetic is carried out on `Nat` modulo `2 ^ 64`.
-/

/-- `2 ^ 64`, the modulus of C `uint64_t` arithmetic. -/
def U64 : Nat := 2 ^ 64

/-- `#define F2FS_BLKSIZE 4096` from the source. -/
def F2FS_BLKSIZE : Nat := 4096

/-- `#define F2FS_SUPER_OFFSET 1024` from the source. -/
def F2FS_SUPER_OFFSET : Nat := 1024

/-- Modelled from the spec: `CRYPT_FOOTER_OFFSET` comes from `cryptfs.h`,
which is not part of the given sources.  The spec calls it "a constant byte
length reserved at the end of some devices for encryption metadata"; its
value in the Android tree is `0x4000` = 16384 bytes. -/
def CRYPT_FOOTER_OFFSET : Nat := 16384

/-- Modelled from the spec: `F2FS_SUPER_MAGIC` comes from `linux/magic.h`,
which is not part of the given sources.  The spec calls it "the f2fs magic
constant" compared against the first 4 little-endian bytes of the record;
its value in the kernel header is `0xF2F52010`. -/
def F2FS_SUPER_MAGIC : Nat := 0xF2F52010

/-- `EINVAL` from `errno.h` (22 on Linux). -/
def EINVAL : Int := 22

/-- The packed `struct f2fs_super_block` as read from disk: the embedding
keeps the two fields the code uses, the `__le32 magic` and the
`__le64 block_count`. -/
structure f2fs_super_block where
  magic : Nat
  block_count : Nat
deriving Repr, DecidableEq

/-- A block device as seen by this file: `devSize` is the `BLKGETSIZE64`
result (`none` when `open` or the ioctl fails, making `get_dev_sz` return
-1), and `readSb off` is the result of `pread` of one superblock record at
byte offset `off` (`none` when the read is short or fails, e.g. on a file
descriptor whose `open` failed). -/
structure BlockDevice where
  devSize : Option Nat
  readSb : Nat → Option f2fs_super_block

/-- `get_dev_sz`: open the device and query its byte size; `none` models the
-1 error return. -/
def get_dev_sz (dev : BlockDevice) : Option Nat :=
  dev.devSize

/-- The `if (crypt_footer) dev_sz -= CRYPT_FOOTER_OFFSET;` lines: unchecked
`uint64_t` subtraction, i.e. subtraction modulo `2 ^ 64`. -/
def crypt_adjust (dev_sz : Nat) (crypt_footer : Bool) : Nat :=
  if crypt_footer then (dev_sz % U64 + U64 - CRYPT_FOOTER_OFFSET) % U64
  else dev_sz % U64

/-- The argv built for `/system/bin/mke2fs` in `format_ext4`: base options,
then `-I 512` when project IDs are needed, then the metadata-checksum
option group, then the device and the computed block-count string. -/
def mke2fs_argv (fs_blkdev size_str : String)
    (needs_projid needs_metadata_csum : Bool) : List String :=
  ["/system/bin/mke2fs", "-t", "ext4", "-b", "4096"]
    ++ (if needs_projid then ["-I", "512"] else [])
    ++ (if needs_metadata_csum then
          ["-O", "metadata_csum", "-O", "64bit", "-O", "extent"]
        else [])
    ++ [fs_blkdev, size_str]

/-- The argv built for `/system/bin/e2fsdroid` in `format_ext4`. -/
def e2fsdroid_argv (fs_mnt_point fs_blkdev : String) : List String :=
  ["/system/bin/e2fsdroid", "-e", "-a", fs_mnt_point, fs_blkdev]

/-- `format_ext4`: query the device size, subtract the crypto footer when
requested, run mke2fs with the size in 4096-byte blocks; on non-zero exit
return that code without running e2fsdroid, otherwise run e2fsdroid and
return its status.  The second component is the trace of invocations. -/
def format_ext4 (exec : List String → Int) (dev : BlockDevice)
    (fs_blkdev fs_mnt_point : String)
    (crypt_footer needs_projid needs_metadata_csum : Bool) :
    Int × List (List String) :=
  match get_dev_sz dev with
  | none => (-1, [])
  | some sz0 =>
    let dev_sz := crypt_adjust sz0 crypt_footer
    let size_str := toString (dev_sz / 4096)
    let args := mke2fs_argv fs_blkdev size_str needs_projid needs_metadata_csum
    let rc := exec args
    if rc ≠ 0 then (rc, [args])
    else
      let args2 := e2fsdroid_argv fs_mnt_point fs_blkdev
      (exec args2, [args, args2])

/-- The argv built for `/system/bin/make_f2fs` in `format_f2fs`: the fixed
"android" layout profile, then the three optional feature groups, then the
device and the computed block-count string. -/
def make_f2fs_argv (fs_blkdev size_str : String)
    (needs_projid needs_casefold fs_compress : Bool) : List String :=
  ["/system/bin/make_f2fs", "-g", "android"]
    ++ (if needs_projid then ["-O", "project_quota,extra_attr"] else [])
    ++ (if needs_casefold then ["-O", "casefold", "-C", "utf8"] else [])
    ++ (if fs_compress then ["-O", "compression", "-O", "extra_attr"] else [])
    ++ [fs_blkdev, size_str]

/-- `format_f2fs`: when the passed `dev_sz` is zero query the device size
(propagating its failure), subtract the crypto footer when requested, and
run make_f2fs once with the size in 4096-byte blocks. -/
def format_f2fs (exec : List String → Int) (dev : BlockDevice)
    (fs_blkdev : String) (dev_sz : Nat)
    (crypt_footer needs_projid needs_casefold fs_compress : Bool) :
    Int × List (List String) :=
  match (if dev_sz % U64 = 0 then get_dev_sz dev else some (dev_sz % U64)) with
  | none => (-1, [])
  | some sz0 =>
    let sz := crypt_adjust sz0 crypt_footer
    let size_str := toString (sz / 4096)
    let args := make_f2fs_argv fs_blkdev size_str needs_projid needs_casefold
      fs_compress
    (exec args, [args])

/-- `format_vfat`: run newfs_msdos once (the `access` check in the source is
informational only and never blocks the attempt). -/
def format_vfat (exec : List String → Int) (fs_blkdev : String) :
    Int × List (List String) :=
  let args := ["/system/bin/newfs_msdos", "-O", "android", fs_blkdev]
  (exec args, [args])

/-- The feature flags carried by an fstab entry that this file reads. -/
structure FsMgrFlags where
  fs_compress : Bool
  ext_meta_csum : Bool
deriving Repr, DecidableEq

/-- The fields of `FstabEntry` that `fs_mgr_do_format` / `fs_mgr_do_resize`
read: block device path, mount point, filesystem type string, declared
length (`uint64_t`, 0 meaning "use full device size"), and flags. -/
structure FstabEntry where
  blk_device : String
  mount_point : String
  fs_type : String
  length : Nat
  fs_mgr_flags : FsMgrFlags
deriving Repr, DecidableEq

/-- The two system-wide boolean settings `fs_mgr_do_format` consults via
`GetBoolProperty` ("external_storage.casefold.enabled" and
"external_storage.projid.enabled"). -/
structure SysProps where
  casefold_enabled : Bool
  projid_enabled : Bool
deriving Repr, DecidableEq

/-- `fs_mgr_do_format`: read the two ambient boolean settings only when the
mount point is "/data", then dispatch on the filesystem type string,
returning `-EINVAL` (with no invocation) on any unsupported type. -/
def fs_mgr_do_format (exec : List String → Int) (dev : BlockDevice)
    (props : SysProps) (entry : FstabEntry) (crypt_footer : Bool) :
    Int × List (List String) :=
  let needs_casefold :=
    if entry.mount_point = "/data" then props.casefold_enabled else false
  let needs_projid :=
    if entry.mount_point = "/data" then props.projid_enabled else false
  if entry.fs_type = "f2fs" then
    format_f2fs exec dev entry.blk_device entry.length crypt_footer
      needs_projid needs_casefold entry.fs_mgr_flags.fs_compress
  else if entry.fs_type = "ext4" then
    format_ext4 exec dev entry.blk_device entry.mount_point crypt_footer
      needs_projid entry.fs_mgr_flags.ext_meta_csum
  else if entry.fs_type = "vfat" then
    format_vfat exec entry.blk_device
  else
    (-EINVAL, [])

/-- `read_f2fs_sb`: read the record at offset `F2FS_SUPER_OFFSET`; a short
read fails outright.  Accept it when its magic matches; otherwise read the
backup copy at `F2FS_BLKSIZE + F2FS_SUPER_OFFSET` and accept that one
exactly when its magic matches.  The `__le32 magic` comparison is on the
low 32 bits. -/
def read_f2fs_sb (dev : BlockDevice) : Option f2fs_super_block :=
  match dev.readSb F2FS_SUPER_OFFSET with
  | none => none
  | some sb =>
    if sb.magic % 2 ^ 32 = F2FS_SUPER_MAGIC then some sb
    else
      match dev.readSb (F2FS_BLKSIZE + F2FS_SUPER_OFFSET) with
      | none => none
      | some sb2 =>
        if sb2.magic % 2 ^ 32 = F2FS_SUPER_MAGIC then some sb2 else none

/-- `get_f2fs_size`: the accepted superblock's `block_count` times
`F2FS_BLKSIZE` in `uint64_t` arithmetic, or 0 when no valid superblock was
found. -/
def get_f2fs_size (dev : BlockDevice) : Nat :=
  match read_f2fs_sb dev with
  | some sb => sb.block_count % U64 * F2FS_BLKSIZE % U64
  | none => 0

/-- The argv built for `/system/bin/resize.f2fs` in `resize_f2fs`. -/
def resize_f2fs_argv (size_str fs_blkdev : String) : List String :=
  ["/system/bin/resize.f2fs", "-t", size_str, fs_blkdev]

/-- `resize_f2fs`: resolve the target size (passed `dev_sz` when non-zero,
else the queried device size, propagating its failure), subtract the crypto
footer when requested; skip with success when no valid superblock was found
or the target does not exceed the on-disk size plus `4096 * 1024` bytes of
slack; otherwise invoke resize.f2fs with the target in 512-byte sectors. -/
def resize_f2fs (exec : List String → Int) (dev : BlockDevice)
    (fs_blkdev : String) (dev_sz : Nat) (crypt_footer : Bool) :
    Int × List (List String) :=
  match (if dev_sz % U64 = 0 then get_dev_sz dev else some (dev_sz % U64)) with
  | none => (-1, [])
  | some sz0 =>
    let sz := crypt_adjust sz0 crypt_footer
    let f2fs_sz := get_f2fs_size dev
    if f2fs_sz = 0 ∨ sz ≤ (f2fs_sz + 4096 * 1024) % U64 then (0, [])
    else
      let size_str := toString (sz / 512)
      let args := resize_f2fs_argv size_str fs_blkdev
      (exec args, [args])

/-- `fs_mgr_do_resize`: only f2fs is supported (the ext4 branch is commented
out in the source); every other type returns `-EINVAL` with no
invocation. -/
def fs_mgr_do_resize (exec : List String → Int) (dev : BlockDevice)
    (entry : FstabEntry) (crypt_footer : Bool) : Int × List (List String) :=
  if entry.fs_type = "f2fs" then
    resize_f2fs exec dev entry.blk_device entry.length crypt_footer
  else
    (-EINVAL, [])

/-! ### Helper lemmas -/

/-- When the device size is representable in `uint64_t` and at least the
footer offset whenever the footer is subtracted, the `uint64_t` subtraction
is the plain one. -/
theorem crypt_adjust_eq (D : Nat) (cf : Bool) (hD : D < U64)
    (h : cf = true → CRYPT_FOOTER_OFFSET ≤ D) :
    crypt_adjust D cf = D - (if cf then CRYPT_FOOTER_OFFSET else 0) := by
  have h1 : D % U64 = D := Nat.mod_eq_of_lt hD
  cases cf with
  | false => simpa [crypt_adjust] using h1
  | true =>
    have hU : U64 = 2 ^ 64 := rfl
    have hC : CRYPT_FOOTER_OFFSET = 16384 := rfl
    have hle : CRYPT_FOOTER_OFFSET ≤ D := h rfl
    have h2 : D + U64 - CRYPT_FOOTER_OFFSET = D - CRYPT_FOOTER_OFFSET + U64 := by
      omega
    rw [crypt_adjust, if_pos rfl, h1, h2, Nat.add_mod_right, if_pos rfl]
    exact Nat.mod_eq_of_lt (by omega)

theorem list_getLast_pair {α : Type} (l : List α) (a b : α) :
    (l ++ [a, b]).getLast? = some b := by
  have h : l ++ [a, b] = (l ++ [a]) ++ [b] := by simp
  rw [h, List.getLast?_concat]

theorem list_dropLast_pair {α : Type} (l : List α) (a b : α) :
    (l ++ [a, b]).dropLast.dropLast = l := by
  have h : l ++ [a, b] = (l ++ [a]) ++ [b] := by simp
  rw [h, List.dropLast_concat, List.dropLast_concat]

theorem mke2fs_argv_getLast (bd s : String) (p m : Bool) :
    (mke2fs_argv bd s p m).getLast? = some s := by
  have h : mke2fs_argv bd s p m =
      (["/system/bin/mke2fs", "-t", "ext4", "-b", "4096"]
        ++ (if p then ["-I", "512"] else [])
        ++ (if m then ["-O", "metadata_csum", "-O", "64bit", "-O", "extent"]
            else [])) ++ [bd, s] := by
    simp [mke2fs_argv]
  rw [h, list_getLast_pair]

theorem make_f2fs_argv_getLast (bd s : String) (pj c cp : Bool) :
    (make_f2fs_argv bd s pj c cp).getLast? = some s := by
  have h : make_f2fs_argv bd s pj c cp =
      (["/system/bin/make_f2fs", "-g", "android"]
        ++ (if pj then ["-O", "project_quota,extra_attr"] else [])
        ++ (if c then ["-O", "casefold", "-C", "utf8"] else [])
        ++ (if cp then ["-O", "compression", "-O", "extra_attr"] else []))
      ++ [bd, s] := by
    simp [make_f2fs_argv]
  rw [h, list_getLast_pair]

/-- The first (and possibly only) invocation of `format_ext4` is mke2fs with
the computed block-count string as its last argument. -/
theorem format_ext4_head (exec : List String → Int) (dev : BlockDevice)
    (bd mp : String) (cf p m : Bool) (D : Nat)
    (hdev : get_dev_sz dev = some D) :
    (format_ext4 exec dev bd mp cf p m).2.head? =
      some (mke2fs_argv bd (toString (crypt_adjust D cf / 4096)) p m) := by
  unfold format_ext4
  rw [hdev]
  by_cases h : exec (mke2fs_argv bd (toString (crypt_adjust D cf / 4096)) p m) = 0 <;>
    simp [h]

/-- The trace of `format_f2fs` once the size resolved to `sz0`. -/
theorem format_f2fs_trace (exec : List String → Int) (dev : BlockDevice)
    (bd : String) (D : Nat) (cf pj c cp : Bool) (sz0 : Nat)
    (hsz : (if D % U64 = 0 then get_dev_sz dev else some (D % U64)) = some sz0) :
    (format_f2fs exec dev bd D cf pj c cp).2 =
      [make_f2fs_argv bd (toString (crypt_adjust sz0 cf / 4096)) pj c cp] := by
  unfold format_f2fs
  rw [hsz]

theorem mke2fs_argv_dropLast (bd s : String) (p m : Bool) :
    (mke2fs_argv bd s p m).dropLast.dropLast =
      ["/system/bin/mke2fs", "-t", "ext4", "-b", "4096"]
        ++ (if p then ["-I", "512"] else [])
        ++ (if m then ["-O", "metadata_csum", "-O", "64bit", "-O", "extent"]
            else []) := by
  have h : mke2fs_argv bd s p m =
      (["/system/bin/mke2fs", "-t", "ext4", "-b", "4096"]
        ++ (if p then ["-I", "512"] else [])
        ++ (if m then ["-O", "metadata_csum", "-O", "64bit", "-O", "extent"]
            else [])) ++ [bd, s] := by
    simp [mke2fs_argv]
  rw [h, list_dropLast_pair]

theorem make_f2fs_argv_dropLast (bd s : String) (pj c cp : Bool) :
    (make_f2fs_argv bd s pj c cp).dropLast.dropLast =
      ["/system/bin/make_f2fs", "-g", "android"]
        ++ (if pj then ["-O", "project_quota,extra_attr"] else [])
        ++ (if c then ["-O", "casefold", "-C", "utf8"] else [])
        ++ (if cp then ["-O", "compression", "-O", "extra_attr"] else []) := by
  have h : make_f2fs_argv bd s pj c cp =
      (["/system/bin/make_f2fs", "-g", "android"]
        ++ (if pj then ["-O", "project_quota,extra_attr"] else [])
        ++ (if c then ["-O", "casefold", "-C", "utf8"] else [])
        ++ (if cp then ["-O", "compression", "-O", "extra_attr"] else []))
      ++ [bd, s] := by
    simp [make_f2fs_argv]
  rw [h, list_dropLast_pair]

/-! ### Claims -/

/-- C1: for every device byte size `D` (as resolved for the respective
format path) and crypto-footer flag `cf`, the block-count argument (the
last argv element) passed to the ext4 and f2fs format utilities is the
decimal string of `(D - (CRYPT_FOOTER_OFFSET if cf else 0)) / 4096`. -/
theorem c1_format_block_count (exec : List String → Int) (dev : BlockDevice)
    (bd mp : String) (cf p m pj c cp : Bool) (D : Nat)
    (hD : D < U64) (hfoot : cf = true → CRYPT_FOOTER_OFFSET ≤ D)
    (hdev : get_dev_sz dev = some D) :
    ((format_ext4 exec dev bd mp cf p m).2.head?.bind List.getLast? =
      some (toString ((D - (if cf then CRYPT_FOOTER_OFFSET else 0)) / 4096))) ∧
    ((format_f2fs exec dev bd 0 cf pj c cp).2.head?.bind List.getLast? =
      some (toString ((D - (if cf then CRYPT_FOOTER_OFFSET else 0)) / 4096))) := by
  have hc := crypt_adjust_eq D cf hD hfoot
  constructor
  · rw [format_ext4_head exec dev bd mp cf p m D hdev]
    simp [mke2fs_argv_getLast, hc]
  · have hsz : (if (0 : Nat) % U64 = 0 then get_dev_sz dev
        else some (0 % U64)) = some D := by
      simp [hdev]
    rw [format_f2fs_trace exec dev bd 0 cf pj c cp D hsz]
    simp [make_f2fs_argv_getLast, hc]

/-- Witness for C1 on a 1 GiB device with the crypto footer present. -/
theorem c1_format_block_count_witness :
    (1073741824 < U64) ∧
    ((format_ext4 (fun _ => 0) ⟨some 1073741824, fun _ => none⟩
        "/dev/block/userdata" "/data" true false false).2.head?.bind
          List.getLast? =
      some (toString ((1073741824 -
        (if true then CRYPT_FOOTER_OFFSET else 0)) / 4096))) ∧
    ((format_f2fs (fun _ => 0) ⟨some 1073741824, fun _ => none⟩
        "/dev/block/userdata" 0 true false false false).2.head?.bind
          List.getLast? =
      some (toString ((1073741824 -
        (if true then CRYPT_FOOTER_OFFSET else 0)) / 4096))) :=
  ⟨by decide,
   c1_format_block_count (fun _ => 0) ⟨some 1073741824, fun _ => none⟩
     "/dev/block/userdata" "/data" true false false false false false
     1073741824 (by decide) (fun _ => by decide) rfl⟩

/-- C2: the superblock reader accepts the record at offset 1024 iff its
magic (low 32 bits) matches; on mismatch it accepts the record at
4096 + 1024 iff that magic matches; acceptance yields
`block_count * 4096` (in `uint64_t` arithmetic), and a short read at the
tried offset or two mismatches yields size 0. -/
theorem c2_f2fs_superblock (dev : BlockDevice) :
    (dev.readSb F2FS_SUPER_OFFSET = none → get_f2fs_size dev = 0) ∧
    (∀ sb, dev.readSb F2FS_SUPER_OFFSET = some sb →
      (sb.magic % 2 ^ 32 = F2FS_SUPER_MAGIC →
        get_f2fs_size dev = sb.block_count % U64 * F2FS_BLKSIZE % U64) ∧
      (sb.magic % 2 ^ 32 ≠ F2FS_SUPER_MAGIC →
        (dev.readSb (F2FS_BLKSIZE + F2FS_SUPER_OFFSET) = none →
          get_f2fs_size dev = 0) ∧
        (∀ sb2, dev.readSb (F2FS_BLKSIZE + F2FS_SUPER_OFFSET) = some sb2 →
          (sb2.magic % 2 ^ 32 = F2FS_SUPER_MAGIC →
            get_f2fs_size dev = sb2.block_count % U64 * F2FS_BLKSIZE % U64) ∧
          (sb2.magic % 2 ^ 32 ≠ F2FS_SUPER_MAGIC →
            get_f2fs_size dev = 0)))) := by
  refine ⟨fun h1 => ?_, fun sb h1 => ⟨fun hm => ?_, fun hm =>
    ⟨fun h2 => ?_, fun sb2 h2 => ⟨fun hm2 => ?_, fun hm2 => ?_⟩⟩⟩⟩
  · simp [get_f2fs_size, read_f2fs_sb, h1]
  · simp only [Nat.reducePow] at hm
    simp [get_f2fs_size, read_f2fs_sb, h1, hm]
  · simp only [Nat.reducePow] at hm
    simp [get_f2fs_size, read_f2fs_sb, h1, hm, h2]
  · simp only [Nat.reducePow] at hm hm2
    simp [get_f2fs_size, read_f2fs_sb, h1, hm, h2, hm2]
  · simp only [Nat.reducePow] at hm hm2
    simp [get_f2fs_size, read_f2fs_sb, h1, hm, h2, hm2]

/-- A device whose backup superblock copy (at offset 5120) is the valid
one; the primary copy at 1024 has a garbage magic. -/
def devBackupSb : BlockDevice :=
  ⟨some 0, fun off =>
    if off = 1024 then some ⟨0xdeadbeef, 7⟩
    else if off = 5120 then some ⟨0xF2F52010, 42⟩
    else none⟩

/-- Witness for C2: the backup copy at offset 5120 is accepted and its
block count determines the size. -/
theorem c2_f2fs_superblock_witness :
    get_f2fs_size devBackupSb = 42 % U64 * F2FS_BLKSIZE % U64 :=
  ((((c2_f2fs_superblock devBackupSb).2 ⟨0xdeadbeef, 7⟩ rfl).2
      (by decide)).2 ⟨0xF2F52010, 42⟩ rfl).1 (by decide)

/-- C3: an f2fs resize is skipped with success (no invocation) when no
valid superblock was found or the target does not exceed the on-disk size
plus the 4 MiB slack; otherwise resize.f2fs is invoked with the target in
512-byte sectors. -/
theorem c3_resize_noop_law (exec : List String → Int) (dev : BlockDevice)
    (bd : String) (D : Nat) (cf : Bool) (sz0 : Nat)
    (hsz : (if D % U64 = 0 then get_dev_sz dev else some (D % U64)) = some sz0)
    (hslack : get_f2fs_size dev + 4096 * 1024 < U64) :
    ((get_f2fs_size dev = 0 ∨
        crypt_adjust sz0 cf ≤ get_f2fs_size dev + 4096 * 1024) →
      resize_f2fs exec dev bd D cf = (0, [])) ∧
    (get_f2fs_size dev ≠ 0 →
      get_f2fs_size dev + 4096 * 1024 < crypt_adjust sz0 cf →
      resize_f2fs exec dev bd D cf =
        (exec (resize_f2fs_argv (toString (crypt_adjust sz0 cf / 512)) bd),
         [resize_f2fs_argv (toString (crypt_adjust sz0 cf / 512)) bd])) := by
  have hmod : (get_f2fs_size dev + 4096 * 1024) % U64 =
      get_f2fs_size dev + 4096 * 1024 := Nat.mod_eq_of_lt hslack
  constructor
  · intro h
    have hcond : get_f2fs_size dev = 0 ∨
        crypt_adjust sz0 cf ≤ (get_f2fs_size dev + 4096 * 1024) % U64 := by
      rw [hmod]; exact h
    simp [resize_f2fs, hsz, hcond]
  · intro hne hlt
    have hncond : ¬ (get_f2fs_size dev = 0 ∨
        crypt_adjust sz0 cf ≤ (get_f2fs_size dev + 4096 * 1024) % U64) := by
      rw [hmod]
      rintro (h | h)
      · exact hne h
      · omega
    simp [resize_f2fs, hsz, hncond]

/-- A device holding a valid f2fs superblock with block count 1 (on-disk
size 4096 bytes). -/
def devSmallFs : BlockDevice :=
  ⟨some 0, fun off => if off = 1024 then some ⟨0xF2F52010, 1⟩ else none⟩

/-- Witness for C3: resizing a 4096-byte f2fs filesystem on a device with
a declared length of 10 MiB invokes resize.f2fs with the sector count. -/
theorem c3_resize_noop_law_witness :
    get_f2fs_size devSmallFs ≠ 0 ∧
    resize_f2fs (fun _ => 7) devSmallFs "/dev/block/userdata" 10485760 false =
      (7, [resize_f2fs_argv (toString (crypt_adjust 10485760 false / 512))
            "/dev/block/userdata"]) :=
  ⟨by decide,
   (c3_resize_noop_law (fun _ => 7) devSmallFs "/dev/block/userdata"
      10485760 false 10485760 (by decide) (by decide)).2 (by decide)
      (by decide)⟩

/-- C5: any filesystem type outside {ext4, f2fs, vfat} makes
`fs_mgr_do_format` return `-EINVAL` with no invocation, and any type other
than f2fs makes `fs_mgr_do_resize` return `-EINVAL` with no invocation. -/
theorem c5_unsupported_type (exec : List String → Int) (dev : BlockDevice)
    (props : SysProps) (entry entry2 : FstabEntry) (cf cf2 : Bool)
    (h1 : entry.fs_type ≠ "ext4") (h2 : entry.fs_type ≠ "f2fs")
    (h3 : entry.fs_type ≠ "vfat") (h4 : entry2.fs_type ≠ "f2fs") :
    fs_mgr_do_format exec dev props entry cf = (-EINVAL, []) ∧
    fs_mgr_do_resize exec dev entry2 cf2 = (-EINVAL, []) := by
  constructor
  · simp [fs_mgr_do_format, h1, h2, h3]
  · simp [fs_mgr_do_resize, h4]

/-- Witness for C5: formatting an "ntfs" entry and resizing an "ext4"
entry both fail with `-EINVAL` and an empty invocation trace. -/
theorem c5_unsupported_type_witness :
    fs_mgr_do_format (fun _ => 0) ⟨some 4096, fun _ => none⟩ ⟨false, false⟩
      ⟨"/dev/block/sda1", "/mnt", "ntfs", 0, ⟨false, false⟩⟩ false =
      (-EINVAL, []) ∧
    fs_mgr_do_resize (fun _ => 0) ⟨some 4096, fun _ => none⟩
      ⟨"/dev/block/sda1", "/mnt", "ext4", 0, ⟨false, false⟩⟩ false =
      (-EINVAL, []) :=
  c5_unsupported_type (fun _ => 0) ⟨some 4096, fun _ => none⟩ ⟨false, false⟩
    ⟨"/dev/block/sda1", "/mnt", "ntfs", 0, ⟨false, false⟩⟩
    ⟨"/dev/block/sda1", "/mnt", "ext4", 0, ⟨false, false⟩⟩ false false
    (by decide) (by decide) (by decide) (by decide)

/-- C6: in `format_ext4`, a non-zero mke2fs exit status is returned as-is
and e2fsdroid is never invoked; on zero exit, e2fsdroid is invoked and its
status is the final result. -/
theorem c6_ext4_short_circuit (exec : List String → Int) (dev : BlockDevice)
    (bd mp : String) (cf p m : Bool) (D : Nat)
    (hdev : get_dev_sz dev = some D) :
    (exec (mke2fs_argv bd (toString (crypt_adjust D cf / 4096)) p m) ≠ 0 →
      format_ext4 exec dev bd mp cf p m =
        (exec (mke2fs_argv bd (toString (crypt_adjust D cf / 4096)) p m),
         [mke2fs_argv bd (toString (crypt_adjust D cf / 4096)) p m])) ∧
    (exec (mke2fs_argv bd (toString (crypt_adjust D cf / 4096)) p m) = 0 →
      format_ext4 exec dev bd mp cf p m =
        (exec (e2fsdroid_argv mp bd),
         [mke2fs_argv bd (toString (crypt_adjust D cf / 4096)) p m,
          e2fsdroid_argv mp bd])) := by
  unfold format_ext4
  rw [hdev]
  constructor <;> intro h <;> simp [h]

/-- Witness for C6: an exec oracle that fails every invocation with status
3 makes `format_ext4` return 3 after the single mke2fs invocation. -/
theorem c6_ext4_short_circuit_witness :
    format_ext4 (fun _ => 3) ⟨some 8192, fun _ => none⟩ "/dev/block/sda2"
      "/cache" false false false =
      (3, [mke2fs_argv "/dev/block/sda2"
            (toString (crypt_adjust 8192 false / 4096)) false false]) :=
  (c6_ext4_short_circuit (fun _ => 3) ⟨some 8192, fun _ => none⟩
    "/dev/block/sda2" "/cache" false false false 8192 rfl).1 (by decide)

/-- C7: each formatter's argument list (with the trailing device path and
size string removed) contains each feature option group exactly when the
corresponding input flag is true. -/
theorem c7_feature_flags (bd s : String) (p m pj c cp : Bool) :
    (["-I", "512"] <:+: (mke2fs_argv bd s p m).dropLast.dropLast ↔
      p = true) ∧
    (["-O", "metadata_csum", "-O", "64bit", "-O", "extent"] <:+:
        (mke2fs_argv bd s p m).dropLast.dropLast ↔ m = true) ∧
    (["-O", "project_quota,extra_attr"] <:+:
        (make_f2fs_argv bd s pj c cp).dropLast.dropLast ↔ pj = true) ∧
    (["-O", "casefold", "-C", "utf8"] <:+:
        (make_f2fs_argv bd s pj c cp).dropLast.dropLast ↔ c = true) ∧
    (["-O", "compression", "-O", "extra_attr"] <:+:
        (make_f2fs_argv bd s pj c cp).dropLast.dropLast ↔ cp = true) := by
  simp only [mke2fs_argv_dropLast, make_f2fs_argv_dropLast]
  cases p <;> cases m <;> cases pj <;> cases c <;> cases cp <;> decide

/-- C8: when the mount point is not "/data", `fs_mgr_do_format` gives the
same result (status and invocation trace) for any two values of the two
system-wide casefold / project-ID settings. -/
theorem c8_props_noninterference (exec : List String → Int)
    (dev : BlockDevice) (entry : FstabEntry) (cf : Bool)
    (props1 props2 : SysProps) (h : entry.mount_point ≠ "/data") :
    fs_mgr_do_format exec dev props1 entry cf =
      fs_mgr_do_format exec dev props2 entry cf := by
  simp [fs_mgr_do_format, h]

/-- Witness for C8: an entry mounted at "/sdcard" formats identically under
opposite system-wide settings. -/
theorem c8_props_noninterference_witness :
    ("/sdcard" : String) ≠ "/data" ∧
    fs_mgr_do_format (fun _ => 0) ⟨some 8192, fun _ => none⟩ ⟨true, true⟩
      ⟨"/dev/block/sda3", "/sdcard", "vfat", 0, ⟨false, false⟩⟩ false =
    fs_mgr_do_format (fun _ => 0) ⟨some 8192, fun _ => none⟩ ⟨false, false⟩
      ⟨"/dev/block/sda3", "/sdcard", "vfat", 0, ⟨false, false⟩⟩ false :=
  ⟨by decide,
   c8_props_noninterference (fun _ => 0) ⟨some 8192, fun _ => none⟩
     ⟨"/dev/block/sda3", "/sdcard", "vfat", 0, ⟨false, false⟩⟩ false
     ⟨true, true⟩ ⟨false, false⟩ (by decide)⟩

/-- C9: when every superblock read on the device fails (e.g. the open
inside the reader failed, which the reader never checks) and the target
size is available (nonzero declared length or successful size query), the
resize reports success 0 with no utility invoked rather than propagating a
device error. -/
theorem c9_unreadable_resize_success (exec : List String → Int)
    (dev : BlockDevice) (bd : String) (D : Nat) (cf : Bool)
    (hread : ∀ off, dev.readSb off = none)
    (hsz : (if D % U64 = 0 then get_dev_sz dev
            else some (D % U64)).isSome) :
    resize_f2fs exec dev bd D cf = (0, []) := by
  have h0 : get_f2fs_size dev = 0 := by
    simp [get_f2fs_size, read_f2fs_sb, hread]
  obtain ⟨sz0, hsz0⟩ := Option.isSome_iff_exists.mp hsz
  unfold resize_f2fs
  rw [hsz0]
  simp [h0]

/-- Witness for C9: a device whose reads all fail resizes to success with
no invocation, given a nonzero declared length. -/
theorem c9_unreadable_resize_success_witness :
    resize_f2fs (fun _ => 9) ⟨none, fun _ => none⟩ "/dev/block/bad" 4096
      true = (0, []) :=
  c9_unreadable_resize_success (fun _ => 9) ⟨none, fun _ => none⟩
    "/dev/block/bad" 4096 true (fun _ => rfl) (by decide)

/-- C4 counterexample: on a 40960-byte device with a declared length of
8192, the f2fs path passes block count "2" (from the declared length)
while the ext4 path passes "10" (from the queried device size), so the two
computations are not equal when the declared length is nonzero. -/
theorem c4_counterexample :
    ((format_f2fs (fun _ => 0) ⟨some 40960, fun _ => none⟩ "/dev/block/sda4"
        8192 false false false false).2.head?.bind List.getLast? =
      some "2") ∧
    ((format_ext4 (fun _ => 0) ⟨some 40960, fun _ => none⟩ "/dev/block/sda4"
        "/data" false false false).2.head?.bind List.getLast? =
      some "10") ∧
    ((format_f2fs (fun _ => 0) ⟨some 40960, fun _ => none⟩ "/dev/block/sda4"
        8192 false false false false).2.head?.bind List.getLast? ≠
      (format_ext4 (fun _ => 0) ⟨some 40960, fun _ => none⟩ "/dev/block/sda4"
        "/data" false false false).2.head?.bind List.getLast?) := by
  refine ⟨by decide, by decide, by decide⟩

/-- C4 amended: the two block-count computations agree whenever the f2fs
path also uses the queried device size, i.e. when the entry's declared
length is zero; with a nonzero declared length the f2fs path derives the
block count from the declared length (modulo `2 ^ 64`) while the ext4 path
always uses the queried device size. -/
theorem c4_amended_block_count (exec exec2 : List String → Int)
    (dev : BlockDevice) (bd bd2 mp : String) (cf p m pj c cp : Bool)
    (D L : Nat) (hdev : get_dev_sz dev = some D) (hL : L % U64 ≠ 0) :
    ((format_f2fs exec dev bd 0 cf pj c cp).2.head?.bind List.getLast? =
      some (toString (crypt_adjust D cf / 4096))) ∧
    ((format_ext4 exec2 dev bd2 mp cf p m).2.head?.bind List.getLast? =
      some (toString (crypt_adjust D cf / 4096))) ∧
    ((format_f2fs exec dev bd L cf pj c cp).2.head?.bind List.getLast? =
      some (toString (crypt_adjust (L % U64) cf / 4096))) := by
  refine ⟨?_, ?_, ?_⟩
  · rw [format_f2fs_trace exec dev bd 0 cf pj c cp D (by simp [hdev])]
    simp [make_f2fs_argv_getLast]
  · rw [format_ext4_head exec2 dev bd2 mp cf p m D hdev]
    simp [mke2fs_argv_getLast]
  · rw [format_f2fs_trace exec dev bd L cf pj c cp (L % U64) (by simp [hL])]
    simp [make_f2fs_argv_getLast]

/-- Witness for the amended C4 on a 40960-byte device with declared length
8192. -/
theorem c4_amended_block_count_witness :
    ((format_f2fs (fun _ => 0) ⟨some 40960, fun _ => none⟩ "/dev/block/sda4"
        0 false false false false).2.head?.bind List.getLast? =
      some (toString (crypt_adjust 40960 false / 4096))) ∧
    ((format_ext4 (fun _ => 0) ⟨some 40960, fun _ => none⟩ "/dev/block/sda4"
        "/data" false false false).2.head?.bind List.getLast? =
      some (toString (crypt_adjust 40960 false / 4096))) ∧
    ((format_f2fs (fun _ => 0) ⟨some 40960, fun _ => none⟩ "/dev/block/sda4"
        8192 false false false false).2.head?.bind List.getLast? =
      some (toString (crypt_adjust (8192 % U64) false / 4096))) :=
  c4_amended_block_count (fun _ => 0) (fun _ => 0)
    ⟨some 40960, fun _ => none⟩ "/dev/block/sda4" "/dev/block/sda4" "/data"
    false false false false false false 40960 8192 rfl (by decide)

/-- C10 counterexample: a resize call with the crypto footer flag true and
a declared length of 4096 < CRYPT_FOOTER_OFFSET on a device with no valid
superblock invokes no utility at all (it returns success with an empty
trace), so the wrapped sector count is not always passed to the external
utility. -/
theorem c10_counterexample :
    (4096 < CRYPT_FOOTER_OFFSET) ∧
    resize_f2fs (fun _ => 0) ⟨some 4096, fun _ => none⟩ "/dev/block/sda5"
      4096 true = (0, []) :=
  ⟨by decide, by decide⟩

/-- C10 amended: the crypto-footer subtraction is unchecked `uint64_t`
arithmetic, so a size below `CRYPT_FOOTER_OFFSET` wraps modulo `2 ^ 64` to
a value above `2 ^ 64 - CRYPT_FOOTER_OFFSET`; both format paths pass the
resulting huge block count to the formatter unconditionally, while the
resize path passes the huge sector count only when a valid superblock was
found and the wrapped target exceeds the on-disk size plus the 4 MiB
slack, and otherwise skips with success. -/
theorem c10_amended_wraparound (exec : List String → Int)
    (dev : BlockDevice) (bd mp : String) (p m pj c cp : Bool) (D : Nat)
    (h0 : 0 < D) (hD : D < CRYPT_FOOTER_OFFSET)
    (hdev : get_dev_sz dev = some D) :
    (U64 - CRYPT_FOOTER_OFFSET < crypt_adjust D true) ∧
    ((format_ext4 exec dev bd mp true p m).2.head?.bind List.getLast? =
      some (toString (crypt_adjust D true / 4096))) ∧
    ((format_f2fs exec dev bd D true pj c cp).2.head?.bind List.getLast? =
      some (toString (crypt_adjust D true / 4096))) ∧
    (get_f2fs_size dev = 0 → resize_f2fs exec dev bd D true = (0, [])) ∧
    (get_f2fs_size dev ≠ 0 →
      (get_f2fs_size dev + 4096 * 1024) % U64 < crypt_adjust D true →
      resize_f2fs exec dev bd D true =
        (exec (resize_f2fs_argv (toString (crypt_adjust D true / 512)) bd),
         [resize_f2fs_argv (toString (crypt_adjust D true / 512)) bd])) := by
  have hU : U64 = 2 ^ 64 := rfl
  have hC : CRYPT_FOOTER_OFFSET = 16384 := rfl
  have hDU : D < U64 := by omega
  have h1 : D % U64 = D := Nat.mod_eq_of_lt hDU
  have hca : crypt_adjust D true = D + U64 - CRYPT_FOOTER_OFFSET := by
    rw [crypt_adjust, if_pos rfl, h1]
    exact Nat.mod_eq_of_lt (by omega)
  have hL : D % U64 ≠ 0 := by omega
  refine ⟨by omega, ?_, ?_, ?_, ?_⟩
  · rw [format_ext4_head exec dev bd mp true p m D hdev]
    simp [mke2fs_argv_getLast]
  · rw [format_f2fs_trace exec dev bd D true pj c cp (D % U64)
      (by simp [hL]), h1]
    simp [make_f2fs_argv_getLast]
  · intro hz
    unfold resize_f2fs
    rw [if_neg hL]
    simp [hz]
  · intro hne hlt
    have hncond : ¬ (get_f2fs_size dev = 0 ∨
        crypt_adjust (D % U64) true ≤
          (get_f2fs_size dev + 4096 * 1024) % U64) := by
      rw [h1]
      rintro (hh | hh)
      · exact hne hh
      · omega
    unfold resize_f2fs
    rw [if_neg hL]
    simp [hncond, h1]
    exact ⟨hne, by simpa using hlt⟩

/-- A 4096-byte device (smaller than the crypto footer) that nevertheless
holds a valid f2fs superblock with block count 1. -/
def devTinyFs : BlockDevice :=
  ⟨some 4096, fun off => if off = 1024 then some ⟨0xF2F52010, 1⟩ else none⟩

/-- Witness for the amended C10 on a 4096-byte device holding a valid
superblock: the wrapped size is huge and resize.f2fs is invoked with the
wrapped sector count. -/
theorem c10_amended_wraparound_witness :
    (U64 - CRYPT_FOOTER_OFFSET < crypt_adjust 4096 true) ∧
    ((format_ext4 (fun _ => 5) devTinyFs "/dev/block/sda6" "/data" true
        false false).2.head?.bind List.getLast? =
      some (toString (crypt_adjust 4096 true / 4096))) ∧
    ((format_f2fs (fun _ => 5) devTinyFs "/dev/block/sda6" 4096 true false
        false false).2.head?.bind List.getLast? =
      some (toString (crypt_adjust 4096 true / 4096))) ∧
    (get_f2fs_size devTinyFs = 0 →
      resize_f2fs (fun _ => 5) devTinyFs "/dev/block/sda6" 4096 true =
        (0, [])) ∧
    (get_f2fs_size devTinyFs ≠ 0 →
      (get_f2fs_size devTinyFs + 4096 * 1024) % U64 <
        crypt_adjust 4096 true →
      resize_f2fs (fun _ => 5) devTinyFs "/dev/block/sda6" 4096 true =
        ((fun _ => (5 : Int))
           (resize_f2fs_argv (toString (crypt_adjust 4096 true / 512))
             "/dev/block/sda6"),
         [resize_f2fs_argv (toString (crypt_adjust 4096 true / 512))
           "/dev/block/sda6"])) :=
  c10_amended_wraparound (fun _ => 5) devTinyFs "/dev/block/sda6" "/data"
    false false false false false 4096 (by decide) (by decide) rfl
